import Mathlib

/-!
Verification of the `.NET DateTime` adapter (`dfdatetime/dotnet_datetime.py`)
against its natural-language specification.

The adapter class `DotNetDateTime` is embedded shallowly: its instance state
becomes a structure, its methods become pure functions, and Python exceptions
become an explicit error channel (`PyError`).  Code of the repository that is
not part of the provided source (the `interface.DateTimeValues` base class and
the `definitions` constants module) is modelled from the specification; each
such definition says so in its doc comment.
-/

/-- Python exception classes that the modelled code can raise. -/
inductive PyError where
  | valueError
  | typeError
deriving DecidableEq, Repr

/-- Modelled from the spec: `definitions.SECONDS_PER_DAY` (seconds-per-day
constant used for epoch offsets, §4.2). -/
def SECONDS_PER_DAY : Int := 86400

/-- Modelled from the spec: `definitions.MICROSECONDS_PER_SECOND`. -/
def MICROSECONDS_PER_SECOND : Int := 1000000

/-- Modelled from the spec: the adapter's ticks-per-second ratio
`R = 10,000,000` for 100 ns ticks (§4.2), i.e. `_100NS_PER_SECOND`. -/
def HNS_PER_SECOND : Int := 10000000

/-- Modelled from the spec: the adapter's ticks-per-microsecond ratio,
i.e. `_100NS_PER_MICROSECOND`. -/
def HNS_PER_MICROSECOND : Int := 10

/-- Modelled from the spec: `_UINT64_MAX`, the unsigned-64 range bound
`2^64 - 1` (§3 invariant, §6 numeric bounds). -/
def UINT64_MAX : Int := 2 ^ 64 - 1

/-- `DotNetDateTime._DOTNET_TO_POSIX_BASE`, from the source:
`((1969 * 365) + (1969 // 4) - (1969 // 100) + (1969 // 400)) *
definitions.SECONDS_PER_DAY`. -/
def DOTNET_TO_POSIX_BASE : Int :=
  ((1969 * 365) + (1969 / 4) - (1969 / 100) + (1969 / 400)) * SECONDS_PER_DAY

/-! ## Calendar arithmetic

Modelled from the spec (§4.1): proleptic Gregorian, standard leap-year rule,
applied uniformly over years 1–9999. -/

/-- Modelled from the spec: the proleptic Gregorian leap-year rule
(divisible by 4, not by 100, unless by 400). -/
def isLeapYear (y : Nat) : Bool :=
  (y % 4 == 0 && y % 100 != 0) || y % 400 == 0

/-- Number of days in a Gregorian year. -/
def daysInYear (y : Nat) : Nat :=
  if isLeapYear y then 366 else 365

/-- Number of days in month `m` of year `y` (months numbered 1–12). -/
def daysInMonth (y m : Nat) : Nat :=
  if m = 2 then (if isLeapYear y then 29 else 28)
  else if m = 4 ∨ m = 6 ∨ m = 9 ∨ m = 11 then 30
  else 31

/-- Day count of the full years `firstYear .. firstYear + count - 1`,
accumulator style so that kernel evaluation stays shallow. -/
def sumYearDays : Nat → Nat → Nat → Nat
  | 0, _, acc => acc
  | count + 1, y, acc => sumYearDays count (y + 1) (acc + daysInYear y)

/-- Days from 0001-01-01 to January 1 of year `n + 1`: the sum of the day
counts of years `1 .. n`, each taken from the leap-year rule.  This is the
independent calendar computation of §8 (epoch constant correctness). -/
def daysBeforeYear (n : Nat) : Nat :=
  sumYearDays n 1 0

/-- Days in months `1 .. m - 1` of year `y`. -/
def sumMonthDays : Nat → Nat → Nat → Nat → Nat
  | 0, _, _, acc => acc
  | count + 1, y, m, acc => sumMonthDays count y (m + 1) (acc + daysInMonth y m)

/-- Days from the first of the year to the first of month `m` of year `y`. -/
def daysBeforeMonth (y m : Nat) : Nat :=
  sumMonthDays (m - 1) y 1 0

/-- Modelled from the spec: `DaysSinceEpoch` for the year-1 epoch — the
proleptic Gregorian day count from 0001-01-01 to the given date (§4.1). -/
def daysFromYear1 (year month day : Nat) : Nat :=
  daysBeforeYear (year - 1) + daysBeforeMonth year month + (day - 1)

/-- Modelled from the spec: `_GetNumberOfSecondsFromElements` — the whole
second count since the POSIX epoch of a date and time of day: day count ×
seconds-per-day + time-of-day seconds (§4.3 step 3).  Per §4.1 the arithmetic
itself does not validate calendrical legality. -/
def getNumberOfSecondsFromElements
    (year month day hours minutes seconds : Nat) : Int :=
  ((daysFromYear1 year month day : Int) - (daysBeforeYear 1969 : Int)) *
      SECONDS_PER_DAY +
    (hours * 3600 + minutes * 60 + seconds : Nat)

/-- Modelled from the spec: `TimeFromSeconds` / `_GetTimeValues` — split a
whole-second count into a day count and a time of day (§4.1, §4.4 step 3). -/
def getTimeValues (totalSeconds : Nat) : Nat × Nat × Nat × Nat :=
  (totalSeconds / 86400, totalSeconds % 86400 / 3600,
    totalSeconds % 3600 / 60, totalSeconds % 60)

/-- Fuel-driven year scan for `DateFromDays`: returns the year containing the
given day offset and the remaining day-of-year offset. -/
def yearOfDays : Nat → Nat → Nat → Nat × Nat
  | 0, y, d => (y, d)
  | fuel + 1, y, d =>
      if d < daysInYear y then (y, d)
      else yearOfDays fuel (y + 1) (d - daysInYear y)

/-- Fuel-driven month scan for `DateFromDays`: returns the month containing
the given day-of-year offset and the (1-based) day of the month. -/
def monthOfDays (y : Nat) : Nat → Nat → Nat → Nat × Nat
  | 0, m, d => (m, d + 1)
  | fuel + 1, m, d =>
      if d < daysInMonth y m then (m, d + 1)
      else monthOfDays y fuel (m + 1) (d - daysInMonth y m)

/-- Modelled from the spec: `DateFromDays` / `_GetDateValuesWithEpoch` for the
year-1 epoch — convert a day count since 0001-01-01 into (year, month, day)
(§4.1, §4.4 step 4). -/
def getDateValuesWithEpoch (days : Nat) : Nat × Nat × Nat :=
  let yd := yearOfDays (days + 1) 1 days
  let md := monthOfDays yd.1 12 1 yd.2
  (yd.1, md.1, md.2)

/-! ## String parsing

Modelled from the spec (§4.3): grammar `YYYY-MM-DD[ hh:mm:ss[.ffffff]][+-hh:mm]`,
optional components default to zero, a 3-digit fraction is scaled ×1000, a
6-digit fraction is used as-is, other fraction widths are rejected; the
parsing stage is responsible for calendrical legality (§4.1 contract). -/

/-- Value of a decimal digit character, or `none`. -/
def digitVal (c : Char) : Option Nat :=
  if c.isDigit then some (c.toNat - 48) else none

/-- Accumulate a digit list into a natural number. -/
def digitsToNat (ds : List Char) : Nat :=
  ds.foldl (fun acc c => acc * 10 + (c.toNat - 48)) 0

/-- The parsed date-time component dictionary of `_CopyDateTimeFromString`:
absent optional components are already defaulted the way the Python `dict.get`
calls in `CopyFromDateTimeString` default them (`microseconds` to `None`,
everything else to zero). -/
structure DateTimeValues where
  year : Nat
  month : Nat
  day_of_month : Nat
  hours : Nat
  minutes : Nat
  seconds : Nat
  microseconds : Option Nat
  time_zone_offset : Int
deriving DecidableEq, Repr

/-- Modelled from the spec: the optional `[+-]##:##` time-zone suffix; the
offset is in signed minutes from UTC (§3, §4.3 step 1). -/
def parseTimeZone (cs : List Char) : Except PyError (Option Int) :=
  match cs with
  | [] => .ok none
  | [sign, h1, h2, ':', m1, m2] =>
      match digitVal h1, digitVal h2, digitVal m1, digitVal m2 with
      | some a, some b, some c, some d =>
          if sign = '+' ∨ sign = '-' then
            let hh := a * 10 + b
            let mm := c * 10 + d
            if hh ≤ 23 ∧ mm ≤ 59 then
              let off : Int := hh * 60 + mm
              .ok (some (if sign = '-' then -off else off))
            else .error .valueError
          else .error .valueError
      | _, _, _, _ => .error .valueError
  | _ => .error .valueError

/-- Modelled from the spec: the optional seconds fraction followed by the
optional time zone; a 3-digit fraction is scaled to microseconds (×1000), a
6-digit fraction is used as-is, other widths are rejected (§4.3). -/
def parseFractionAndTimeZone (cs : List Char) :
    Except PyError (Option Nat × Option Int) :=
  match cs with
  | '.' :: rest =>
      let p := rest.span Char.isDigit
      if p.1.length = 3 ∨ p.1.length = 6 then
        let v := digitsToNat p.1
        let micro := if p.1.length = 3 then v * 1000 else v
        do
          let tz ← parseTimeZone p.2
          return (some micro, tz)
      else .error .valueError
  | rest => do
      let tz ← parseTimeZone rest
      return (none, tz)

/-- Modelled from the spec: the optional ` hh:mm:ss[.ffffff]` time of day;
when absent, the time components default to zero and the fraction is absent
(§4.3). -/
def parseTimeOfDay (cs : List Char) :
    Except PyError ((Nat × Nat × Nat) × Option Nat × Option Int) :=
  match cs with
  | [] => .ok ((0, 0, 0), none, none)
  | ' ' :: h1 :: h2 :: ':' :: m1 :: m2 :: ':' :: s1 :: s2 :: rest =>
      match digitVal h1, digitVal h2, digitVal m1, digitVal m2,
          digitVal s1, digitVal s2 with
      | some a, some b, some c, some d, some e, some f =>
          let hh := a * 10 + b
          let mm := c * 10 + d
          let ss := e * 10 + f
          if hh ≤ 23 ∧ mm ≤ 59 ∧ ss ≤ 59 then do
            let ft ← parseFractionAndTimeZone rest
            return ((hh, mm, ss), ft.1, ft.2)
          else .error .valueError
      | _, _, _, _, _, _ => .error .valueError
  | rest => do
      let tz ← parseTimeZone rest
      return ((0, 0, 0), none, tz)

/-- Modelled from the spec: `_CopyDateTimeFromString` — parse
`YYYY-MM-DD[ hh:mm:ss[.ffffff]][+-hh:mm]` into components, rejecting any
string that does not match the grammar or is not calendrically legal
(§4.3 steps 1–2, §4.1 contract). -/
def copyDateTimeFromString (s : String) : Except PyError DateTimeValues :=
  match s.data with
  | y1 :: y2 :: y3 :: y4 :: '-' :: mo1 :: mo2 :: '-' :: d1 :: d2 :: rest =>
      match digitVal y1, digitVal y2, digitVal y3, digitVal y4,
          digitVal mo1, digitVal mo2, digitVal d1, digitVal d2 with
      | some a, some b, some c, some d, some e, some f, some g, some h =>
          let year := ((a * 10 + b) * 10 + c) * 10 + d
          let month := e * 10 + f
          let day := g * 10 + h
          if 1 ≤ month ∧ month ≤ 12 ∧ 1 ≤ day ∧ day ≤ daysInMonth year month
          then do
            let t ← parseTimeOfDay rest
            return { year := year, month := month, day_of_month := day,
                     hours := t.1.1, minutes := t.1.2.1, seconds := t.1.2.2,
                     microseconds := t.2.1,
                     time_zone_offset := (t.2.2).getD 0 }
          else .error .valueError
      | _, _, _, _, _, _, _, _ => .error .valueError
  | _ => .error .valueError

/-! ## The `DotNetDateTime` adapter

Embedded from `src/dfdatetime/dotnet_datetime.py`.  The instance state is the
triple of attributes the claims are about; methods that mutate the instance
return the new state, and a raised exception is returned in the second
component with the state untouched (an uncaught Python exception propagates
before any of the method's assignments run). -/

/-- The mutable attributes of a `DotNetDateTime` instance:
`_timestamp`, `_time_zone_offset` and the `_normalized_timestamp` cache.
Python's exact `decimal.Decimal` arithmetic is embedded as `ℚ` (all values
involved have well under the 28 significant digits of the default decimal
context, so decimal arithmetic is exact here). -/
structure DotNetDateTime where
  timestamp : Option Int
  time_zone_offset : Int
  normalized_timestamp : Option ℚ
deriving DecidableEq

/-- `DotNetDateTime.__init__`: `self._timestamp = timestamp or 0` — Python
`or` yields `0` when the argument is `None` or the (falsy) integer `0` —
and `time_zone_offset=0`, with the cache unset by the base initializer. -/
def dotNetDateTimeInit (timestamp : Option Int) : DotNetDateTime :=
  { timestamp := some (match timestamp with
      | none => 0
      | some t => if t = 0 then 0 else t),
    time_zone_offset := 0,
    normalized_timestamp := none }

/-- The value computed by the body of `_GetNormalizedTimestamp` (lines 58–63):
`Decimal(timestamp) / _100NS_PER_SECOND - _DOTNET_TO_POSIX_BASE`, minus
`time_zone_offset * 60` only when the offset is nonzero (truthy). -/
def getNormalizedValue (t : Int) (tz : Int) : ℚ :=
  let v : ℚ := (t : ℚ) / (HNS_PER_SECOND : ℚ) - (DOTNET_TO_POSIX_BASE : ℚ)
  if tz ≠ 0 then v - (tz * 60 : Int) else v

/-- `DotNetDateTime._GetNormalizedTimestamp`: memoized read — compute and
cache only when the cache is `None` and a timestamp is present. -/
def DotNetDateTime.GetNormalizedTimestamp (st : DotNetDateTime) :
    Option ℚ × DotNetDateTime :=
  match st.normalized_timestamp with
  | some v => (some v, st)
  | none =>
      match st.timestamp with
      | none => (none, st)
      | some t =>
          let v := getNormalizedValue t st.time_zone_offset
          (some v, { st with normalized_timestamp := some v })

/-- Lines 84–106 of `CopyFromDateTimeString`, after `_CopyDateTimeFromString`
has produced the component dictionary: the year bound check, the
whole-second computation, then the literal `+=` chain of lines 99–102
(`timestamp += _DOTNET_TO_POSIX_BASE; timestamp += MICROSECONDS_PER_SECOND;
timestamp += microseconds; timestamp += _100NS_PER_MICROSECOND`); adding the
`None` microseconds of a fraction-less string raises `TypeError`.  The three
instance assignments (lines 104–106) run only after every statement that can
raise. -/
def DotNetDateTime.copyFromValues (st : DotNetDateTime) (v : DateTimeValues) :
    DotNetDateTime × Option PyError :=
  if v.year > 9999 then (st, some .valueError)
  else
    let ts0 := getNumberOfSecondsFromElements
      v.year v.month v.day_of_month v.hours v.minutes v.seconds
    let ts1 := ts0 + DOTNET_TO_POSIX_BASE
    let ts2 := ts1 + MICROSECONDS_PER_SECOND
    match v.microseconds with
    | none => (st, some .typeError)
    | some u =>
        let ts3 := ts2 + u
        let ts4 := ts3 + HNS_PER_MICROSECOND
        ({ timestamp := some ts4,
           time_zone_offset := v.time_zone_offset,
           normalized_timestamp := none }, none)

/-- `DotNetDateTime.CopyFromDateTimeString`: parse, then the validation and
assignment sequence of `copyFromValues`. -/
def DotNetDateTime.CopyFromDateTimeString (st : DotNetDateTime) (s : String) :
    DotNetDateTime × Option PyError :=
  match copyDateTimeFromString s with
  | .error e => (st, some e)
  | .ok v => st.copyFromValues v

/-- Decimal digit character. -/
def digitChar (n : Nat) : Char :=
  match n with
  | 0 => '0' | 1 => '1' | 2 => '2' | 3 => '3' | 4 => '4'
  | 5 => '5' | 6 => '6' | 7 => '7' | 8 => '8' | _ => '9'

/-- Fuel-driven decimal digit expansion (most significant digit first). -/
def natDigitsAux : Nat → Nat → List Char → List Char
  | 0, _, acc => acc
  | fuel + 1, n, acc =>
      if n < 10 then digitChar n :: acc
      else natDigitsAux fuel (n / 10) (digitChar (n % 10) :: acc)

/-- Python's `'{0:0Nd}'.format(n)`: decimal rendering, zero-padded on the
left to the requested width. -/
def padDecimal (width n : Nat) : String :=
  let ds := natDigitsAux (n + 1) n []
  String.mk (List.replicate (width - ds.length) '0' ++ ds)

/-- `DotNetDateTime.CopyToDateTimeString`: `None` when the timestamp is
missing or outside `[0, _UINT64_MAX]`; otherwise `divmod` by the ticks per
second, time-of-day and date splits, and the fixed-width rendering
`YYYY-MM-DD hh:mm:ss.#######` with a 7-digit fraction. -/
def DotNetDateTime.CopyToDateTimeString (st : DotNetDateTime) :
    Option String :=
  match st.timestamp with
  | none => none
  | some t =>
      if t < 0 ∨ t > UINT64_MAX then none
      else
        let n := t.toNat
        let secs := n / HNS_PER_SECOND.toNat
        let remainder := n % HNS_PER_SECOND.toNat
        let tv := getTimeValues secs
        let dv := getDateValuesWithEpoch tv.1
        some (padDecimal 4 dv.1 ++ "-" ++ padDecimal 2 dv.2.1 ++ "-" ++
          padDecimal 2 dv.2.2 ++ " " ++ padDecimal 2 tv.2.1 ++ ":" ++
          padDecimal 2 tv.2.2.1 ++ ":" ++ padDecimal 2 tv.2.2.2 ++ "." ++
          padDecimal 7 remainder)

/-! ## Evaluation lemmas

Kernel evaluation of `sumYearDays` over ~2000 years exceeds the default
recursion depth, so the year sum is evaluated in chunks of 500 years through
an accumulator-splitting lemma. -/

set_option maxRecDepth 4000

/-- Splitting a year-day sum: summing `a + b` consecutive years is summing
the first `a`, then the remaining `b` from year `y + a`. -/
theorem sumYearDays_add (a : Nat) : ∀ (b y acc : Nat),
    sumYearDays (a + b) y acc = sumYearDays b (y + a) (sumYearDays a y acc) := by
  induction a with
  | zero => intro b y acc; simp [sumYearDays]
  | succ n ih =>
      intro b y acc
      have h : n + 1 + b = (n + b) + 1 := by omega
      rw [h]
      rw [show sumYearDays (n + b + 1) y acc =
            sumYearDays (n + b) (y + 1) (acc + daysInYear y) from rfl]
      rw [ih]
      have h2 : y + 1 + n = y + (n + 1) := by omega
      rw [h2]
      rfl

/-- The independent calendar sum over years 1–1969: the day count from
0001-01-01 to 1970-01-01 is 719162. -/
theorem daysBeforeYear_1969 : daysBeforeYear 1969 = 719162 := by
  have h1 : sumYearDays 500 1 0 = 182621 := by decide
  have h2 : sumYearDays 500 501 182621 = 365242 := by decide
  have h3 : sumYearDays 500 1001 365242 = 547863 := by decide
  have h4 : sumYearDays 469 1501 547863 = 719162 := by decide
  have s1 := sumYearDays_add 500 1469 1 0
  norm_num [h1] at s1
  have s2 := sumYearDays_add 500 969 501 182621
  norm_num [h2] at s2
  have s3 := sumYearDays_add 500 469 1001 365242
  norm_num [h3] at s3
  unfold daysBeforeYear
  rw [s1, s2, s3, h4]

/-- The calendar sum over years 1–2009 (needed to evaluate parses of
2010 dates). -/
theorem daysBeforeYear_2009 : daysBeforeYear 2009 = 733772 := by
  have h1 : sumYearDays 500 1 0 = 182621 := by decide
  have h2 : sumYearDays 500 501 182621 = 365242 := by decide
  have h3 : sumYearDays 500 1001 365242 = 547863 := by decide
  have h4 : sumYearDays 509 1501 547863 = 733772 := by decide
  have s1 := sumYearDays_add 500 1509 1 0
  norm_num [h1] at s1
  have s2 := sumYearDays_add 500 1009 501 182621
  norm_num [h2] at s2
  have s3 := sumYearDays_add 500 509 1001 365242
  norm_num [h3] at s3
  unfold daysBeforeYear
  rw [s1, s2, s3, h4]

/-- `_GetNumberOfSecondsFromElements` at 2010-08-12 20:06:31 is the POSIX
second count 1281643591 (the spec's §8 example). -/
theorem getSeconds_2010 :
    getNumberOfSecondsFromElements 2010 8 12 20 6 31 = 1281643591 := by
  have hm : daysBeforeMonth 2010 8 = 212 := by decide
  unfold getNumberOfSecondsFromElements daysFromYear1
  norm_num [hm, daysBeforeYear_1969, daysBeforeYear_2009, SECONDS_PER_DAY]

/-! ## Claims -/

/-- C1: the round-trip property fails on the code.  At native timestamp 0
(in range), `CopyToDateTimeString` renders `"0001-01-01 00:00:00.0000000"`
with the adapter's 7-digit fraction, and re-parsing that very string with
`CopyFromDateTimeString` raises `ValueError` (only 3- and 6-digit fractions
are accepted) instead of recovering the timestamp. -/
theorem dotnet_roundtrip_fails_at_timestamp_zero :
    (dotNetDateTimeInit none).CopyToDateTimeString =
      some "0001-01-01 00:00:00.0000000" ∧
    ((dotNetDateTimeInit none).CopyFromDateTimeString
        "0001-01-01 00:00:00.0000000").2 = some PyError.valueError := by
  constructor <;> decide

/-- C2: the stored timestamp is not
`((seconds_since_epoch + 62135596800) * 1000000 + u) * 10`.  For the string
`"2010-08-12 20:06:31.000000"` (whole-second count 1281643591, `u = 0`) the
code's `+=` chain stores `1281643591 + 62135596800 + 1000000 + 0 + 10 =
63418240401`, while the claimed scaling formula gives 634172403910000000. -/
theorem dotnet_copyfrom_adds_constants_instead_of_scaling :
    ((dotNetDateTimeInit none).CopyFromDateTimeString
        "2010-08-12 20:06:31.000000").1.timestamp = some 63418240401 ∧
    (63418240401 : Int) ≠ ((1281643591 + 62135596800) * 1000000 + 0) * 10 := by
  constructor
  · have hp : copyDateTimeFromString "2010-08-12 20:06:31.000000" =
        .ok { year := 2010, month := 8, day_of_month := 12, hours := 20,
              minutes := 6, seconds := 31, microseconds := some 0,
              time_zone_offset := 0 } := rfl
    unfold DotNetDateTime.CopyFromDateTimeString
    rw [hp]
    unfold DotNetDateTime.copyFromValues
    norm_num [getSeconds_2010, DOTNET_TO_POSIX_BASE, MICROSECONDS_PER_SECOND,
      HNS_PER_MICROSECOND, SECONDS_PER_DAY]
  · decide

/-- C3: a fraction-less string does not parse successfully.  For the
well-formed input `"2010-08-12 20:06:31"` the parsed `microseconds` is the
Python `None` default of `dict.get`, and `timestamp += microseconds` raises
`TypeError` — not a success, and not the value-error class the method's own
docstring promises. -/
theorem dotnet_copyfrom_fractionless_raises_typeerror :
    ((dotNetDateTimeInit none).CopyFromDateTimeString "2010-08-12 20:06:31").2
      = some PyError.typeError := by decide

/-- C4: for every instance with integer timestamp `t`, offset `z` minutes
and an empty cache, `_GetNormalizedTimestamp` returns exactly
`t / 10^7 - 62135596800 - z * 60` (the zero-offset branch skips a
subtraction of zero); in particular the timestamp encoding
2010-08-12 20:06:31 UTC normalizes to POSIX seconds 1281643591 exactly. -/
theorem dotnet_normalized_timestamp_formula :
    (∀ (t z : Int),
      (DotNetDateTime.GetNormalizedTimestamp
          { timestamp := some t, time_zone_offset := z,
            normalized_timestamp := none }).1 =
        some ((t : ℚ) / 10000000 - 62135596800 - (z : ℚ) * 60)) ∧
    (DotNetDateTime.GetNormalizedTimestamp
        { timestamp := some ((1281643591 + 62135596800) * 10000000),
          time_zone_offset := 0,
          normalized_timestamp := none }).1 = some (1281643591 : ℚ) := by
  constructor
  · intro t z
    show some (getNormalizedValue t z) = _
    unfold getNormalizedValue
    by_cases hz : z = 0
    · subst hz
      norm_num [HNS_PER_SECOND, DOTNET_TO_POSIX_BASE, SECONDS_PER_DAY]
    · simp only [hz, ne_eq, not_false_eq_true, if_true]
      norm_num [HNS_PER_SECOND, DOTNET_TO_POSIX_BASE, SECONDS_PER_DAY]
  · show some (getNormalizedValue ((1281643591 + 62135596800) * 10000000) 0) = _
    norm_num [getNormalizedValue, HNS_PER_SECOND, DOTNET_TO_POSIX_BASE,
      SECONDS_PER_DAY]

/-- C5: a year component above 9999 is rejected with `ValueError` — both at
the component level (the `year > 9999` guard) and for the concrete string
with year 10000 — and `CopyToDateTimeString` returns the `None` sentinel,
never an exception, for every timestamp below 0 or above `2^64 - 1`. -/
theorem dotnet_range_rejection :
    (∀ (st : DotNetDateTime) (v : DateTimeValues), 9999 < v.year →
        st.copyFromValues v = (st, some PyError.valueError)) ∧
    (∀ (st : DotNetDateTime) (t : Int), st.timestamp = some t →
        t < 0 ∨ UINT64_MAX < t → st.CopyToDateTimeString = none) ∧
    ((dotNetDateTimeInit none).CopyFromDateTimeString
        "10000-01-01 00:00:00").2 = some PyError.valueError := by
  refine ⟨?_, ?_, by decide⟩
  · intro st v hy
    unfold DotNetDateTime.copyFromValues
    simp [hy]
  · intro st t ht hr
    unfold DotNetDateTime.CopyToDateTimeString
    rw [ht]
    rcases hr with hr | hr <;> simp [hr]

/-- Witness for C5: the guard fires at year 10000, and the formatter yields
the sentinel at timestamp `2^64`. -/
theorem dotnet_range_rejection_witness :
    (dotNetDateTimeInit none).copyFromValues
        { year := 10000, month := 1, day_of_month := 1, hours := 0,
          minutes := 0, seconds := 0, microseconds := some 0,
          time_zone_offset := 0 } =
      (dotNetDateTimeInit none, some PyError.valueError) ∧
    DotNetDateTime.CopyToDateTimeString
        { timestamp := some (2 ^ 64), time_zone_offset := 0,
          normalized_timestamp := none } = none :=
  ⟨dotnet_range_rejection.1 _ _ (by norm_num),
   dotnet_range_rejection.2.1 _ (2 ^ 64) rfl
     (Or.inr (by norm_num [UINT64_MAX]))⟩

/-- C6: whenever `CopyFromDateTimeString` rejects its input (any raised
exception), the instance state — timestamp, time zone offset and the
normalized-timestamp cache — is returned exactly as it was: all three
assignments are sequenced after every statement that can raise. -/
theorem dotnet_rejection_leaves_state_unchanged
    (st : DotNetDateTime) (s : String)
    (h : (st.CopyFromDateTimeString s).2.isSome) :
    (st.CopyFromDateTimeString s).1 = st := by
  unfold DotNetDateTime.CopyFromDateTimeString at h ⊢
  cases hp : copyDateTimeFromString s with
  | error e => rfl
  | ok v =>
      rw [hp] at h
      change (st.copyFromValues v).2.isSome = true at h
      change (st.copyFromValues v).1 = st
      unfold DotNetDateTime.copyFromValues at h ⊢
      by_cases hy : v.year > 9999
      · simp [hy]
      · simp only [hy, if_false] at h ⊢
        cases hu : v.microseconds with
        | none => simp [hu]
        | some u => simp [hu] at h

/-- Witness for C6: a malformed string is rejected and the default instance
is returned untouched. -/
theorem dotnet_rejection_leaves_state_unchanged_witness :
    ((dotNetDateTimeInit none).CopyFromDateTimeString "bogus").1 =
      dotNetDateTimeInit none :=
  dotnet_rejection_leaves_state_unchanged _ _ (by decide)

/-- C7: the normalized-timestamp cache is `None` at construction, is reset
to `None` by every successful `CopyFromDateTimeString`, a read of a fresh
cache computes the value from the current timestamp and offset (never a
stale one), and a second read changes nothing (the value is recomputed at
most once between mutations). -/
theorem dotnet_cache_invariant :
    (∀ arg : Option Int,
        (dotNetDateTimeInit arg).normalized_timestamp = none) ∧
    (∀ (st : DotNetDateTime) (s : String),
        (st.CopyFromDateTimeString s).2 = none →
        (st.CopyFromDateTimeString s).1.normalized_timestamp = none) ∧
    (∀ (st : DotNetDateTime) (t : Int),
        st.normalized_timestamp = none → st.timestamp = some t →
        (st.GetNormalizedTimestamp).1 =
          some (getNormalizedValue t st.time_zone_offset)) ∧
    (∀ st : DotNetDateTime,
        (st.GetNormalizedTimestamp).2.GetNormalizedTimestamp =
          st.GetNormalizedTimestamp) := by
  refine ⟨fun arg => rfl, ?_, ?_, ?_⟩
  · intro st s h
    unfold DotNetDateTime.CopyFromDateTimeString at h ⊢
    cases hp : copyDateTimeFromString s with
    | error e => rw [hp] at h; simp at h
    | ok v =>
        rw [hp] at h
        change (st.copyFromValues v).2 = none at h
        change (st.copyFromValues v).1.normalized_timestamp = none
        unfold DotNetDateTime.copyFromValues at h ⊢
        by_cases hy : v.year > 9999
        · simp [hy] at h
        · simp only [hy, if_false] at h ⊢
          cases hu : v.microseconds with
          | none => simp [hu] at h
          | some u => simp [hu]
  · intro st t hc ht
    unfold DotNetDateTime.GetNormalizedTimestamp
    rw [hc, ht]
  · intro st
    unfold DotNetDateTime.GetNormalizedTimestamp
    cases hc : st.normalized_timestamp with
    | some v => simp [hc]
    | none =>
        cases ht : st.timestamp with
        | none => simp [hc, ht]
        | some t => simp [hc, ht]

/-- Witness for C7: the construction, successful-parse, fresh-read and
second-read clauses at concrete instances. -/
theorem dotnet_cache_invariant_witness :
    (dotNetDateTimeInit none).normalized_timestamp = none ∧
    ((dotNetDateTimeInit none).CopyFromDateTimeString
        "2010-08-12 20:06:31.000000").1.normalized_timestamp = none ∧
    ((dotNetDateTimeInit none).GetNormalizedTimestamp).1 =
      some (getNormalizedValue 0 0) ∧
    (((dotNetDateTimeInit none).GetNormalizedTimestamp).2).GetNormalizedTimestamp
      = (dotNetDateTimeInit none).GetNormalizedTimestamp :=
  ⟨dotnet_cache_invariant.1 none,
   dotnet_cache_invariant.2.1 _ _ (by decide),
   dotnet_cache_invariant.2.2.1 _ 0 rfl rfl,
   dotnet_cache_invariant.2.2.2 _⟩

/-- C8: for a fixed time zone offset `z`, the normalized timestamp computed
by `_GetNormalizedTimestamp` is strictly monotone in the native timestamp. -/
theorem dotnet_normalized_monotone (t1 t2 z : Int) (h : t1 < t2) :
    getNormalizedValue t1 z < getNormalizedValue t2 z := by
  unfold getNormalizedValue
  have hq : (t1 : ℚ) < t2 := by exact_mod_cast h
  have hd : (t1 : ℚ) / (HNS_PER_SECOND : ℚ) <
      (t2 : ℚ) / (HNS_PER_SECOND : ℚ) :=
    div_lt_div_of_pos_right hq (by norm_num [HNS_PER_SECOND])
  by_cases hz : z = 0 <;> simp [hz] <;> linarith

/-- Witness for C8: strict increase from timestamp 0 to 1 at offset 0. -/
theorem dotnet_normalized_monotone_witness :
    getNormalizedValue 0 0 < getNormalizedValue 1 0 :=
  dotnet_normalized_monotone 0 1 0 (by norm_num)

/-- C9: the precomputed `_DOTNET_TO_POSIX_BASE` equals the independent
proleptic Gregorian day count from 0001-01-01 to 1970-01-01 (719162 days,
summed year by year from the leap-year rule) times 86400 seconds per day,
exactly 62135596800, in exact integer arithmetic. -/
theorem dotnet_epoch_constant_correct :
    DOTNET_TO_POSIX_BASE = (daysBeforeYear 1969 : Int) * SECONDS_PER_DAY ∧
    daysBeforeYear 1969 = 719162 ∧
    DOTNET_TO_POSIX_BASE = 62135596800 := by
  refine ⟨?_, daysBeforeYear_1969, by decide⟩
  rw [daysBeforeYear_1969]; decide

/-- C10: the constructor coerces an omitted, `None` or zero argument to the
integer 0, so the timestamp attribute is never `None`, a normalized read is
never undetermined, and a default-constructed instance formats as the
year-1 epoch date rather than as the no-value sentinel. -/
theorem dotnet_init_timestamp_never_none :
    (∀ arg : Option Int, ((dotNetDateTimeInit arg).timestamp).isSome) ∧
    (dotNetDateTimeInit none).timestamp = some 0 ∧
    (dotNetDateTimeInit (some 0)).timestamp = some 0 ∧
    (∀ arg : Option Int,
        ((dotNetDateTimeInit arg).GetNormalizedTimestamp).1.isSome) ∧
    (dotNetDateTimeInit none).CopyToDateTimeString =
      some "0001-01-01 00:00:00.0000000" :=
  ⟨fun arg => rfl, rfl, rfl, fun arg => rfl, by decide⟩
